import Mathlib

/-!
Verification of the connection-pool and statement/result execution layer of
the go-sqlite repository, as a shallow embedding in Lean 4.

The embedding covers:
* `ConnEx.Prepare` and `StatementEx.Exec` (sys/sqlite3 statement set);
* the two `Pool` variants found in pkg/sqlite3/pool.go — the first variant
  occupies lines 1-381 of that file and the second variant lines 383-638;
  where the two variants define a function of the same name the embedded
  definitions carry the suffixes `V1` and `V2`;
* `to_values` from pkg/sqlite/txn.go;
* `isReservedWord` / the reserved-word table from pkg/sqlite (txn.go tail).

The native SQLite engine is an external collaborator: its primitive
operations (prepare/step/reset/bind/finalize/open/attach) are passed in as
oracle parameters, so that the control flow of the Go functions under
verification is what the Lean definitions reproduce.
-/

namespace GoSqlite

/-! ## Go string primitives

`strings.TrimSpace`, `strings.ToUpper` and `strings.Fields` are implemented
here over the character list of the string, so that every definition below
evaluates inside the kernel. -/

/-- ASCII upper-casing of one character (the reserved words and schema
names below are ASCII; Go's `strings.ToUpper` agrees with this on ASCII). -/
def goCharToUpper (c : Char) : Char :=
  if 'a' ≤ c ∧ c ≤ 'z' then Char.ofNat (c.toNat - 32) else c

/-- `strings.ToUpper`. -/
def goToUpper (s : String) : String := ⟨s.toList.map goCharToUpper⟩

/-- `strings.TrimSpace`: drop leading and trailing whitespace. -/
def goTrimSpace (s : String) : String :=
  ⟨((s.toList.dropWhile Char.isWhitespace).reverse.dropWhile
      Char.isWhitespace).reverse⟩

/-- Accumulator loop for `strings.Fields`: split around whitespace runs. -/
def goFieldsAux : List Char → List Char → List String
  | [], acc => if acc.isEmpty then [] else [⟨acc.reverse⟩]
  | c :: cs, acc =>
      if c.isWhitespace then
        if acc.isEmpty then goFieldsAux cs []
        else ⟨acc.reverse⟩ :: goFieldsAux cs []
      else goFieldsAux cs (c :: acc)

/-- `strings.Fields`. -/
def goFields (s : String) : List String := goFieldsAux s.toList []

/-! ## Engine result codes (sys/sqlite3) -/

/-- SQLITE_DONE result code: a statement has finished executing. -/
def SQLITE_DONE : Nat := 101

/-- SQLITE_ROW result code: a step produced a row. -/
def SQLITE_ROW : Nat := 100

/-! ## Statement Set: ConnEx.Prepare (src/unnamed/part_000, lines 25-49) -/

/-- Outcome of one engine-level `Conn.Prepare` call: either a compiled
statement handle together with the remaining not-yet-compiled text, or an
engine error code. -/
inductive PrepOutcome where
  | ok (st : Nat) (extra : String)
  | err (code : Nat)
deriving DecidableEq, Repr

/-- Result of a `ConnEx.Prepare` call. `stmts` is `some` with the ordered
handle sequence when the call returns a statement set, `none` when it
returns an error. `compiled` lists every handle compiled during the call and
`finalized` every handle finalized during the call (the Go source contains
no `Finalize` call inside `Prepare`, so `finalized` is `[]` on every path). -/
structure PrepResult where
  stmts : Option (List Nat)
  compiled : List Nat
  finalized : List Nat
deriving DecidableEq, Repr

/-- The `for` loop of `ConnEx.Prepare`: repeatedly compile a prefix of `q`,
trim the returned remainder, and accumulate handles, until the text is empty
or compilation fails. The Go loop is unbounded; `fuel` bounds the recursion
(the engine always returns a strict suffix, so any `fuel > q.length`
reproduces the source behaviour; the `fuel = 0` fallthrough reports an
error without finalizing, matching the error path's shape). -/
def prepareLoop (engine : String → PrepOutcome) : Nat → String → List Nat → PrepResult
  | 0, q, acc =>
      if q = "" then ⟨some acc, acc, []⟩ else ⟨none, acc, []⟩
  | fuel + 1, q, acc =>
      if q = "" then ⟨some acc, acc, []⟩
      else
        match engine q with
        | .ok st extra => prepareLoop engine fuel (goTrimSpace extra) (acc ++ [st])
        | .err _ => ⟨none, acc, []⟩

/-- `ConnEx.Prepare`: compile the text `q` into an ordered statement set.
On a compile error it returns the error immediately (`stmts = none`);
the handles already appended to `s.st` are abandoned, not finalized. -/
def ConnEx.Prepare (engine : String → PrepOutcome) (fuel : Nat) (q : String) : PrepResult :=
  prepareLoop engine fuel q []

/-! ## Statement Set: StatementEx.Exec (src/unnamed/part_000, lines 73-101) -/

/-- Per-statement engine behaviour for one `Exec` call: the outcome of
`Reset`, of `Bind` (consulted only when arguments are supplied), and the
result code of `Step` (`SQLITE_ROW`, `SQLITE_DONE`, or a failure code). -/
structure StmtBehavior where
  handle : Nat
  resetErr : Option Nat
  bindErr : Option Nat
  stepCode : Nat
deriving DecidableEq, Repr

/-- The Result Cursor returned by `results(st, err)`: the statement handle
being stepped and the step code (`SQLITE_ROW` or `SQLITE_DONE`) that
produced the cursor. -/
structure ResultsCursor where
  st : Nat
  last : Nat
deriving DecidableEq, Repr

/-- Result of one `StatementEx.Exec` call: the returned cursor (`none` when
the Go function returns `nil` results), the returned error code (`none` for
a `nil` error), and which primitive operations ran during the call. -/
structure ExecResult where
  results : Option ResultsCursor
  err : Option Nat
  didReset : Bool
  didBind : Bool
  didStep : Bool
deriving DecidableEq, Repr

/-- The tail of `Exec` after a successful `Reset` (and `Bind`, when
arguments were supplied): perform the step; a `SQLITE_DONE` or `SQLITE_ROW`
outcome yields a cursor and a `nil` error, anything else is propagated. -/
def StatementEx.execStep (st : StmtBehavior) (didBind : Bool) : ExecResult :=
  if st.stepCode = SQLITE_DONE ∨ st.stepCode = SQLITE_ROW then
    { results := some ⟨st.handle, st.stepCode⟩, err := none,
      didReset := true, didBind := didBind, didStep := true }
  else
    { results := none, err := some st.stepCode,
      didReset := true, didBind := didBind, didStep := true }

/-- The body of `Exec` once statement `n` has been selected: reset the
handle (propagating a reset failure), bind when arguments were supplied
(propagating a bind failure), then step. -/
def StatementEx.execAt (st : StmtBehavior) (hasArgs : Bool) : ExecResult :=
  match st.resetErr with
  | some e =>
      { results := none, err := some e,
        didReset := true, didBind := false, didStep := false }
  | none =>
      if hasArgs then
        match st.bindErr with
        | some e =>
            { results := none, err := some e,
              didReset := true, didBind := true, didStep := false }
        | none => StatementEx.execStep st true
      else StatementEx.execStep st false

/-- `StatementEx.Exec`: execute prepared statement `n`. If `n` is beyond
the compiled sequence, return `(nil, SQLITE_DONE)` without touching any
handle; otherwise reset the handle, bind when arguments are supplied
(`hasArgs` models `len(v) > 0`), and step once. -/
def StatementEx.Exec (sts : List StmtBehavior) (n : Nat) (hasArgs : Bool) : ExecResult :=
  match sts[n]? with
  | none =>
      { results := none, err := some SQLITE_DONE,
        didReset := false, didBind := false, didStep := false }
  | some st => StatementEx.execAt st hasArgs

/-! ## Pool (src/pkg/sqlite3/pool.go) -/

/-- Modelled from the spec: the default schema name. Its Go constant
(`defaultSchema`) is declared in a file of this repository that is not part
of the included sources; the sample configuration maps `main` to the
in-memory store. -/
def defaultSchema : String := "main"

/-- Modelled from the spec: the in-memory database path (empty-path schemas
attach an in-memory store). The Go constant (`defaultMemory`) is declared in
a file outside the included sources. -/
def defaultMemory : String := ":memory:"

/-- Errors raised by the pool layer (go-errors values plus engine errors).
Aggregate (multierror) failures are represented as lists of `Err`. -/
inductive Err where
  | channelBlocked (maxv : Int)
  | notFound (schema : String)
  | badParameter (s : String)
  | engine (code : Nat)
deriving DecidableEq, Repr

/-- A `*Conn`: `hasChannel` models whether the release-notification channel
`conn.c` is non-nil; `closeErr` is the engine oracle for what `conn.Close()`
would return. -/
structure Conn where
  id : Nat
  hasChannel : Bool
  closeErr : Option Err
deriving DecidableEq, Repr

/-- Pool state shared across callers: the lease counter `n` (an int32,
modelled as `Int` — its range is never approached by the claims), the
maximum `max` (`PoolConfig.Max`), the idle store (the `sync.Pool`
contents), the open flags, and the diagnostic sink. The sink models the
`errs` channel: `sink` holds the errors it has accepted and `sinkCap` its
remaining buffer capacity (`0` models a nil or currently blocked channel). -/
structure PoolState where
  n : Int
  max : Int
  idle : List Conn
  flags : Nat
  sink : List Err
  sinkCap : Nat
deriving DecidableEq, Repr

/-- `Pool.err`: pass an error to the sink channel unless the send would
block (`select` with a `default` arm), in which case it is dropped. -/
def Pool.err (p : PoolState) (e : Err) : PoolState :=
  if p.sink.length < p.sinkCap then { p with sink := p.sink ++ [e] } else p

/-- `^[a-zA-Z][a-zA-Z0-9_-]+$` (`reSchemaName`, identical in both pool
variants): an ASCII letter followed by one or more letters, digits,
underscores or hyphens. -/
def matchesSchemaName (s : String) : Bool :=
  match s.toList with
  | [] => false
  | c :: rest =>
      c.isAlpha && !rest.isEmpty &&
        rest.all (fun d => d.isAlphanum || d = '_' || d = '-')

/-- Schema configuration: a map from schema name to database path, modelled
as an association list (`map[string]string`; iteration order is arbitrary in
Go, and the claims below are order-independent). -/
def lookupSchema (schemas : List (String × String)) (s : String) : Option String :=
  (schemas.find? (fun kv => kv.1 = s)).map (fun kv => kv.2)

/-- The body of `pathForSchema` for a non-empty name: a name that fails
`reSchemaName` or is absent from the schema map yields `""`, otherwise its
configured path. -/
def Pool.schemaPath (schemas : List (String × String)) (s : String) : String :=
  if !matchesSchemaName s then ""
  else
    match lookupSchema schemas s with
    | none => ""
    | some path => path

/-- `Pool.pathForSchema` (identical in both pool variants): an empty name
falls through to the default schema. The source recurses once on the empty
name; since `defaultSchema = "main"` is non-empty the recursion is unrolled
here. -/
def Pool.pathForSchema (schemas : List (String × String)) (schema : String) : String :=
  if schema = "" then Pool.schemaPath schemas defaultSchema
  else Pool.schemaPath schemas schema

/-- Result of `Pool.new` (first variant, lines 228-289): the constructed
connection (`none` when an error is returned instead), the multierror
accumulated over the attach loop, and the list of `(schema, path)` pairs
for which the engine attach operation `p.attach` was actually invoked. -/
structure NewConnResult where
  conn : Option Conn
  errs : List Err
  attached : List (String × String)
deriving DecidableEq, Repr

/-- `Pool.attach` (first variant, lines 335-353): an empty schema name is
rejected with `ErrBadParameter` before any engine interaction; an empty
path is replaced by the in-memory path (the source recurses once with
`defaultMemory`, which is non-empty, so the recursion is unrolled);
otherwise the engine-side work — the stat/create of a file-backed store and
the `ATTACH DATABASE` statement — runs, its outcome given by the
`engineAttach` oracle. The second component records the engine attach
attempts made, as `(schema, path)` pairs. -/
def Pool.attach (engineAttach : String → String → Option Err)
    (schema path : String) : Option Err × List (String × String) :=
  if schema = "" then (some (Err.badParameter schema), [])
  else
    if path = "" then
      (engineAttach schema defaultMemory, [(schema, defaultMemory)])
    else (engineAttach schema path, [(schema, path)])

/-- One iteration of the attach loop of `Pool.new` (lines 255-268), given
the outcome `r` of the remaining iterations: the trimmed schema name is
skipped when it is the default schema; a schema whose `pathForSchema` is
empty contributes `ErrBadParameter` to the multierror and is never
attached; otherwise `p.attach` runs and its failure is appended to the
multierror. `schemas` is both the lookup map and the iteration source,
exactly as `range p.Schemas` iterates the map itself. -/
def Pool.attachStep (schemas : List (String × String))
    (engineAttach : String → String → Option Err) (kv : String × String)
    (r : List Err × List (String × String)) : List Err × List (String × String) :=
  if goTrimSpace kv.1 = defaultSchema then r
  else if Pool.pathForSchema schemas (goTrimSpace kv.1) = "" then
    (Err.badParameter (goTrimSpace kv.1) :: r.1, r.2)
  else
    match Pool.attach engineAttach (goTrimSpace kv.1)
        (Pool.pathForSchema schemas (goTrimSpace kv.1)) with
    | (some e, calls) => (e :: r.1, calls ++ r.2)
    | (none, calls) => (r.1, calls ++ r.2)

/-- The iteration itself; `Pool.attachStep` is the loop body for one
configured schema (its Go locals `schema` and `path` are inlined). -/
def Pool.attachLoop (schemas : List (String × String))
    (engineAttach : String → String → Option Err) :
    List (String × String) → List Err × List (String × String)
  | [] => ([], [])
  | kv :: rest =>
      Pool.attachStep schemas engineAttach kv
        (Pool.attachLoop schemas engineAttach rest)

/-- `Pool.new` (first variant): resolve the default schema's path (failing
with `ErrNotFound` when it cannot be resolved), open the connection to it
(`openOracle` stands for `OpenPath`, whose flags handling is engine-side),
then run the attach loop over all configured schemas; any accumulated
multierror makes the construction fail and the connection is not handed
out. `fresh` is the newly opened connection. -/
def Pool.new (schemas : List (String × String)) (openOracle : Except Err Conn)
    (engineAttach : String → String → Option Err) : NewConnResult :=
  let defaultPath := Pool.pathForSchema schemas defaultSchema
  if defaultPath = "" then
    { conn := none, errs := [Err.notFound defaultSchema], attached := [] }
  else
    match openOracle with
    | .error e => { conn := none, errs := [e], attached := [] }
    | .ok fresh =>
        let r := Pool.attachLoop schemas engineAttach schemas
        if r.1 = [] then { conn := some fresh, errs := [], attached := r.2 }
        else { conn := none, errs := r.1, attached := r.2 }

/-- Outcome of `Pool.Get` (first variant, lines 178-212): the caller
receives a leased connection, or `nil` — either from the exhaustion branch
or from the `conn == nil` check after the type assertion — or the call
panics (a failed `interface{}` → `*Conn` assertion, or a non-nil `conn.c`). -/
inductive GetOutcome where
  | exhausted
  | nilConn
  | leased (c : Conn)
  | panicked
deriving DecidableEq, Repr

/-- The value `p.Pool.Get()` yields, as a Go interface value:
`none` is the nil interface (what the `sync.Pool` `New` closure returns when
`p.new` fails), `some none` would be an interface holding a typed nil
`*Conn` (no code path produces one), and `some (some c)` a real connection. -/
def Pool.storeGet (p : PoolState) (ctorResult : Except Err Conn) :
    Option (Option Conn) × PoolState :=
  match p.idle with
  | c :: rest => (some (some c), { p with idle := rest })
  | [] =>
      match ctorResult with
      | .error e => (none, Pool.err p e)
      | .ok c => (some (some c), p)

/-- `Pool.Get` (first variant): when `Cur() >= Max()`, record pool
exhaustion on the sink and return nil; otherwise take a connection from the
`sync.Pool` (constructing one via `p.new` when the store is empty — the
constructor outcome is the `ctorResult` oracle), assert it to `*Conn`
(panicking on a nil interface), return nil if the asserted pointer is nil,
panic if its channel is already set, and otherwise increment the lease
counter, install the channel and hand the connection out. -/
def Pool.Get (p : PoolState) (ctorResult : Except Err Conn) : GetOutcome × PoolState :=
  if p.max ≤ p.n then
    (GetOutcome.exhausted, Pool.err p (Err.channelBlocked p.max))
  else
    match Pool.storeGet p ctorResult with
    | (none, p') => (GetOutcome.panicked, p')
    | (some none, p') => (GetOutcome.nilConn, p')
    | (some (some c), p') =>
        if c.hasChannel then (GetOutcome.panicked, p')
        else
          (GetOutcome.leased { c with hasChannel := true },
            { p' with n := p'.n + 1 })

/-- Outcome of the background reclaim step `Pool.put`. -/
inductive PutOutcome where
  | returned
  | closed
  | panicked
deriving DecidableEq, Repr

/-- `Pool.put`, first variant (lines 291-307): panic when `conn.c` is nil;
otherwise close the channel, decrement the lease counter, and — reading the
maximum once — return the connection to the idle store when the
post-decrement count is below the maximum, else close it (reporting a close
failure on the sink). -/
def Pool.putV1 (p : PoolState) (c : Conn) : PutOutcome × PoolState :=
  if !c.hasChannel then (PutOutcome.panicked, p)
  else
    let c' := { c with hasChannel := false }
    let n' := p.n - 1
    if n' < p.max then
      (PutOutcome.returned, { p with n := n', idle := p.idle ++ [c'] })
    else
      match c'.closeErr with
      | some e => (PutOutcome.closed, Pool.err { p with n := n' } e)
      | none => (PutOutcome.closed, { p with n := n' })

/-- `Pool.put`, second variant (lines 591-605): panic when `conn.c` is nil;
decrement the counter, close the channel, and return the connection to the
idle store when the post-decrement count is **greater than or equal to**
the maximum, else close the connection (reporting a close failure on the
sink) — the comparison is the reverse of the first variant's. -/
def Pool.putV2 (p : PoolState) (c : Conn) : PutOutcome × PoolState :=
  if !c.hasChannel then (PutOutcome.panicked, p)
  else
    let c' := { c with hasChannel := false }
    let n' := p.n - 1
    if p.max ≤ n' then
      (PutOutcome.returned, { p with n := n', idle := p.idle ++ [c'] })
    else
      match c'.closeErr with
      | some e => (PutOutcome.closed, Pool.err { p with n := n' } e)
      | none => (PutOutcome.closed, { p with n := n' })

/-- `PoolConfig` as consumed by `OpenPool` (first variant; the second
variant reads only `Max`, `Schemas` and `Flags`). -/
structure PoolConfig where
  maxConns : Int
  schemas : List (String × String)
  trace : Bool
  create : Bool
  flags : Nat
deriving DecidableEq, Repr

/-- `maxInt32` / `int64Max` from the source: the larger of two values. -/
def goMaxInt (a b : Int) : Int := if a > b then a else b

/-- SQLITE_OPEN_CREATE flag bit (sys/sqlite3). -/
def SQLITE_OPEN_CREATE : Nat := 4

/-- Default open flags of the first variant's `defaultPoolConfig`
(CREATE, READWRITE and SHAREDCACHE), abstracted to their bit pattern. -/
def defaultFlags : Nat := 4 + 2 + 131072

/-- The `Max` of `defaultPoolConfig` (both variants): 5. -/
def defaultPoolMax : Int := 5

/-- Flag adjustment in the first `OpenPool`: zero flags fall back to the
defaults, then the CREATE bit is set or cleared per `config.Create`. -/
def OpenPoolV1.flagsOf (config : PoolConfig) : Nat :=
  let f := if config.flags = 0 then defaultFlags else config.flags
  if config.create then f ||| SQLITE_OPEN_CREATE else f - (f &&& SQLITE_OPEN_CREATE)

/-- `OpenPool`, first variant (lines 80-125): coerce `Max` (default 5 when
zero, else at least 1), adjust flags, eagerly construct one connection via
`p.new` — failing the open when construction fails — and store it in the
idle store of the returned pool, whose lease counter starts at 0. -/
def OpenPoolV1 (config : PoolConfig) (sinkCap : Nat) (openOracle : Except Err Conn)
    (attachOracle : String → String → Option Err) : Except (List Err) PoolState :=
  let max1 := if config.maxConns = 0 then defaultPoolMax else goMaxInt config.maxConns 1
  let flags := OpenPoolV1.flagsOf config
  let r := Pool.new config.schemas openOracle attachOracle
  match r.conn with
  | none => .error r.errs
  | some c =>
      .ok { n := 0, max := max1, idle := [c], flags := flags,
            sink := [], sinkCap := sinkCap }

/-- `OpenPool`, second variant (lines 445-453): store the configuration,
coerce `Max` only to at least 0, and return at once — no default of 5 for a
zero maximum, and no eagerly created idle connection. Never fails. -/
def OpenPoolV2 (config : PoolConfig) (sinkCap : Nat) : PoolState :=
  { n := 0, max := goMaxInt config.maxConns 0, idle := [], flags := config.flags,
    sink := [], sinkCap := sinkCap }

/-! ## Value binding: to_values (src/pkg/sqlite/txn.go, lines 101-127) -/

/-- A caller-supplied Go value, one constructor per dynamic type that the
`switch` in `to_values` can observe. Integer payloads carry `Int` (machine
widths' ranges play no role in the claims); float payloads carry `Rat`,
since the float32 → float64 widening performed by the source is exact on
finite values; `goTime` is a `time.Time` abstracted to its tick count;
`goOther` is any other dynamic type, identified by name. -/
inductive GoValue where
  | goNil
  | goInt (x : Int)
  | goInt8 (x : Int)
  | goInt16 (x : Int)
  | goInt32 (x : Int)
  | goInt64 (x : Int)
  | goUint (x : Nat)
  | goUint8 (x : Nat)
  | goUint16 (x : Nat)
  | goUint32 (x : Nat)
  | goUint64 (x : Nat)
  | goFloat32 (x : Rat)
  | goFloat64 (x : Rat)
  | goString (s : String)
  | goBool (b : Bool)
  | goBytes (bs : List Nat)
  | goTime (ticks : Int)
  | goOther (tyName : String)
deriving DecidableEq, Repr

/-- A `database/sql/driver.Value` as produced by `to_values`: the dynamic
types that survive the switch (converted integers and floats, and the
passthrough cases `string`, `int64`, `time.Time`, `bool`, `nil`, `[]byte`). -/
inductive DriverValue where
  | dInt64 (x : Int)
  | dFloat64 (x : Rat)
  | dString (s : String)
  | dBool (b : Bool)
  | dTime (ticks : Int)
  | dNil
  | dBytes (bs : List Nat)
deriving DecidableEq, Repr

/-- The per-argument body of the `switch` in `to_values`: signed integer
widths are promoted to `int64`; both float widths to `float64`; `string`,
`int64`, `time.Time`, `bool`, `nil` and `[]byte` pass through unchanged; any
other dynamic type — including every unsigned integer width — falls to the
`default` arm, an "Unsupported bind type" error (`none`). -/
def toValue : GoValue → Option DriverValue
  | .goInt x => some (.dInt64 x)
  | .goInt8 x => some (.dInt64 x)
  | .goInt16 x => some (.dInt64 x)
  | .goInt32 x => some (.dInt64 x)
  | .goFloat64 x => some (.dFloat64 x)
  | .goFloat32 x => some (.dFloat64 x)
  | .goString s => some (.dString s)
  | .goInt64 x => some (.dInt64 x)
  | .goTime t => some (.dTime t)
  | .goBool b => some (.dBool b)
  | .goNil => some .dNil
  | .goBytes bs => some (.dBytes bs)
  | .goUint _ => none
  | .goUint8 _ => none
  | .goUint16 _ => none
  | .goUint32 _ => none
  | .goUint64 _ => none
  | .goOther _ => none

/-- The loop of `to_values` starting at argument index `i`: convert each
argument in order, returning the index of the first unsupported argument as
the error. -/
def to_valuesLoop : Nat → List GoValue → Except Nat (List DriverValue)
  | _, [] => .ok []
  | i, a :: rest =>
      match toValue a with
      | none => .error i
      | some v =>
          match to_valuesLoop (i + 1) rest with
          | .error j => .error j
          | .ok vs => .ok (v :: vs)

/-- `to_values`: convert all caller arguments to supported driver values or
return an "Unsupported bind type" error naming the offending index. -/
def to_values (args : List GoValue) : Except Nat (List DriverValue) :=
  to_valuesLoop 0 args

/-! ## Reserved words: isReservedWord (src/pkg/sqlite/txn.go tail) -/

/-- The `reserved_words` constant: the space/newline-separated keyword list
(whitespace normalised to single spaces here; `strings.Fields` collapses
whitespace runs either way). -/
def reserved_words : String :=
  "ABORT ACTION ADD AFTER ALL ALTER ANALYZE AND AS ASC ATTACH AUTOINCREMENT " ++
  "BEFORE BEGIN BETWEEN BY CASCADE CASE CAST CHECK COLLATE COLUMN " ++
  "COMMIT CONFLICT CONSTRAINT CREATE CROSS CURRENT_DATE CURRENT_TIME " ++
  "CURRENT_TIMESTAMP DATABASE DEFAULT DEFERRABLE DEFERRED DELETE " ++
  "DESC DETACH DISTINCT DROP EACH ELSE END ESCAPE EXCEPT EXCLUSIVE " ++
  "EXISTS EXPLAIN FAIL FOR FOREIGN FROM FULL GLOB GROUP HAVING IF " ++
  "IGNORE IMMEDIATE IN INDEX INDEXED INITIALLY INNER INSERT INSTEAD " ++
  "INTERSECT INTO IS ISNULL JOIN KEY LEFT LIKE LIMIT MATCH NATURAL " ++
  "NO NOT NOTNULL NULL OF OFFSET ON OR ORDER OUTER PLAN PRAGMA PRIMARY " ++
  "QUERY RAISE RECURSIVE REFERENCES REGEXP REINDEX RELEASE RENAME " ++
  "REPLACE RESTRICT RIGHT ROLLBACK ROW SAVEPOINT SELECT SET TABLE " ++
  "TEMP TEMPORARY THEN TO TRANSACTION TRIGGER UNION UNIQUE UPDATE " ++
  "USING VACUUM VALUES VIEW VIRTUAL WHEN WHERE WITH WITHOUT"

/-- One `reservedWords[...] = true` map write (the map's key set, modelled
as a duplicate-free list in insertion order). -/
def mapInsert (table : List String) (w : String) : List String :=
  if w ∈ table then table else table ++ [w]

/-- The body of the `once.Do` closure in `isReservedWord`: insert the
upper-cased form of every field of `reserved_words` into the global
`reservedWords` map. -/
def reservedInit (table : List String) : List String :=
  (goFields reserved_words).foldl (fun acc w => mapInsert acc (goToUpper w)) table

/-- The process-wide mutable state touched by `isReservedWord`: the key set
of the global `reservedWords` map, and a count of how many times the
initialisation closure has executed. -/
structure ReservedState where
  table : List String
  runCount : Nat
deriving DecidableEq, Repr

/-- `isReservedWord`: the source declares `var once sync.Once` **inside the
function**, so each call carries a fresh `Once` and `once.Do` executes the
initialisation closure on every call, re-writing the global map; the query
then upper-cases and trims the argument and tests map membership. -/
def isReservedWord (st : ReservedState) (value : String) : Bool × ReservedState :=
  let st' : ReservedState := { table := reservedInit st.table, runCount := st.runCount + 1 }
  let v := goTrimSpace (goToUpper value)
  (v ∈ st'.table, st')

/-! ## Concrete inputs used by the counterexamples and witnesses -/

/-- A toy engine for `ConnEx.Prepare`: the text `"A;X"` compiles its first
statement to handle 1 with remainder `"X"`, and every other text — in
particular the remainder `"X"` — fails to compile. -/
def engineAX : String → PrepOutcome := fun q =>
  if q = "A;X" then PrepOutcome.ok 1 "X" else PrepOutcome.err 1

/-- A one-statement set whose statement resets and binds cleanly and whose
step yields a row. -/
def demoSet : List StmtBehavior := [⟨1, none, none, SQLITE_ROW⟩]

/-- A freshly opened connection (no lease channel, clean close). -/
def conn7 : Conn := ⟨7, false, none⟩

/-- A pool at its maximum (5 leases out of 5) whose diagnostic sink has no
capacity — the `errs` channel is nil or blocked. -/
def fullPoolNoSink : PoolState := ⟨5, 5, [], 0, [], 0⟩

/-- A pool at its maximum whose diagnostic sink can accept one error. -/
def fullPoolSink1 : PoolState := ⟨5, 5, [], 0, [], 1⟩

/-- An empty pool (no leases, no idle connections), maximum 5. -/
def emptyPool5 : PoolState := ⟨0, 5, [], 0, [], 0⟩

/-- A pool with one outstanding lease and maximum 5, about to reclaim. -/
def reclaimPool : PoolState := ⟨1, 5, [], 0, [], 0⟩

/-- The leased connection being reclaimed (its channel is installed). -/
def reclaimConn : Conn := ⟨1, true, none⟩

/-- A configuration with a zero maximum and only the default schema. -/
def cfgZero : PoolConfig := ⟨0, [("main", ":memory:")], false, true, 0⟩

/-- A schema map carrying the default schema and the invalid name `"1bad"`. -/
def schemasWithBad : List (String × String) := [("main", ":memory:"), ("1bad", "x.db")]

/-- An engine attach oracle that always succeeds. -/
def attachOk : String → String → Option Err := fun _ _ => none

/-- The reserved-word state before any call: empty map, initialiser never
run. -/
def rsState0 : ReservedState := ⟨[], 0⟩

/-- First call of `isReservedWord` on `"SELECT"`. -/
def rsCall1 : Bool × ReservedState := isReservedWord rsState0 "SELECT"

/-- Second call of `isReservedWord` on `"SELECT"`, on the state the first
call left behind. -/
def rsCall2 : Bool × ReservedState := isReservedWord rsCall1.2 "SELECT"

/-! ## Helper lemmas -/

/-- No arm of the `Prepare` loop finalizes a handle. -/
theorem prepareLoop_finalized (engine : String → PrepOutcome) :
    ∀ (fuel : Nat) (q : String) (acc : List Nat),
      (prepareLoop engine fuel q acc).finalized = [] := by
  intro fuel
  induction fuel with
  | zero =>
      intro q acc
      unfold prepareLoop
      split <;> rfl
  | succ fuel ih =>
      intro q acc
      unfold prepareLoop
      by_cases hq : q = ""
      · simp [hq]
      · rw [if_neg hq]
        rcases hE : engine q with ⟨st, extra⟩ | code
        · exact ih (goTrimSpace extra) (acc ++ [st])
        · rfl

/-! ## Theorems for the claims -/

/-- C2 counterexample: preparing `"A;X"` against `engineAX` compiles
handle 1, then fails to compile the suffix `"X"`: `Prepare` returns an
error and no set, yet handle 1 — compiled during that same call — is not
finalized before the error is returned. -/
theorem Prepare_error_compiled_not_finalized_cx :
    (ConnEx.Prepare engineAX 3 "A;X").stmts = none ∧
    1 ∈ (ConnEx.Prepare engineAX 3 "A;X").compiled ∧
    1 ∉ (ConnEx.Prepare engineAX 3 "A;X").finalized := by decide

/-- C2 (amended): whenever some statement prefix fails to compile,
`ConnEx.Prepare` returns an error and no partial statement set, but the
handles already compiled during that call are not finalized —
`Prepare` performs no finalization on any execution path. -/
theorem Prepare_never_finalizes (engine : String → PrepOutcome) (fuel : Nat)
    (q : String) : (ConnEx.Prepare engine fuel q).finalized = [] :=
  prepareLoop_finalized engine fuel q []

/-- C10: `Prepare` on the empty SQL text succeeds with a statement set of
zero compiled statements, and `Exec` on that empty set returns the
`(nil, SQLITE_DONE)` "no more statements" marker at index 0 and at every
other index, with or without bind arguments. -/
theorem Prepare_empty_text_exec_done (engine : String → PrepOutcome)
    (fuel n : Nat) (hasArgs : Bool) :
    ConnEx.Prepare engine fuel "" = ⟨some [], [], []⟩ ∧
    StatementEx.Exec [] n hasArgs =
      ⟨none, some SQLITE_DONE, false, false, false⟩ := by
  constructor
  · cases fuel <;> rfl
  · unfold StatementEx.Exec
    rw [List.getElem?_nil]

/-- C1: reclaiming the single outstanding lease of a maximum-5 pool
(post-decrement lease count 0, strictly within the maximum). The first
variant's `put` (pool.go lines 291-307) returns the Connection to the idle
store as the claim states; the second variant's `put` (lines 591-605) has
the comparison inverted and instead closes and discards the Connection. -/
theorem put_reclaim_divergence :
    (Pool.putV1 reclaimPool reclaimConn).1 = PutOutcome.returned ∧
    (Pool.putV1 reclaimPool reclaimConn).2.n = 0 ∧
    (Pool.putV1 reclaimPool reclaimConn).2.idle = [⟨1, false, none⟩] ∧
    (Pool.putV2 reclaimPool reclaimConn).1 = PutOutcome.closed ∧
    (Pool.putV2 reclaimPool reclaimConn).2.n = 0 ∧
    (Pool.putV2 reclaimPool reclaimConn).2.idle = [] := by decide

/-- C4 counterexample: `Get` on a full pool whose diagnostic sink has no
capacity (a nil or blocked `errs` channel, an explicitly supported
configuration) returns nil without recording anything on the sink — the
claim's "both the sink report and the nil return occur on every such call"
fails. -/
theorem Get_exhausted_sink_dropped_cx :
    (Pool.Get fullPoolNoSink (Except.ok conn7)).1 = GetOutcome.exhausted ∧
    (Pool.Get fullPoolNoSink (Except.ok conn7)).2.sink = [] ∧
    (Pool.Get fullPoolNoSink (Except.ok conn7)).2.n = 5 := by decide

/-- C4 (amended): whenever `Get` is called with the lease count at or above
the maximum it returns nil, leaves the lease count and idle store
untouched, and offers a pool-exhausted error to the diagnostic sink, which
is recorded exactly when the sink has capacity and dropped otherwise. -/
theorem Get_exhausted_spec (p : PoolState) (ctor : Except Err Conn)
    (h : p.max ≤ p.n) :
    (Pool.Get p ctor).1 = GetOutcome.exhausted ∧
    (Pool.Get p ctor).2.n = p.n ∧
    (Pool.Get p ctor).2.idle = p.idle ∧
    (Pool.Get p ctor).2.sink =
      (if p.sink.length < p.sinkCap then p.sink ++ [Err.channelBlocked p.max]
       else p.sink) := by
  have hg : Pool.Get p ctor =
      (GetOutcome.exhausted, Pool.err p (Err.channelBlocked p.max)) := by
    unfold Pool.Get
    rw [if_pos h]
  rw [hg]
  refine ⟨rfl, ?_, ?_, ?_⟩ <;> (unfold Pool.err; split <;> rfl)

/-- C4 witness: on a full pool whose sink can accept one error, `Get`
returns nil and the exhaustion error is recorded. -/
theorem Get_exhausted_spec_witness :
    fullPoolSink1.max ≤ fullPoolSink1.n ∧
    ((Pool.Get fullPoolSink1 (Except.ok conn7)).1 = GetOutcome.exhausted ∧
     (Pool.Get fullPoolSink1 (Except.ok conn7)).2.n = fullPoolSink1.n ∧
     (Pool.Get fullPoolSink1 (Except.ok conn7)).2.idle = fullPoolSink1.idle ∧
     (Pool.Get fullPoolSink1 (Except.ok conn7)).2.sink =
       (if fullPoolSink1.sink.length < fullPoolSink1.sinkCap
        then fullPoolSink1.sink ++ [Err.channelBlocked fullPoolSink1.max]
        else fullPoolSink1.sink)) :=
  ⟨by decide, Get_exhausted_spec fullPoolSink1 (Except.ok conn7) (by decide)⟩

/-- C7 counterexample: `to_values` rejects unsigned integers (`uint8` and
`uint64` shown) with the unsupported-type error although the claim maps
every unsigned width to integer storage, and it accepts `time.Time`, a
value outside the claim's closed list of supported shapes. -/
theorem to_values_shape_cx :
    to_values [GoValue.goUint8 5] = Except.error 0 ∧
    to_values [GoValue.goUint64 5] = Except.error 0 ∧
    to_values [GoValue.goTime 0] = Except.ok [DriverValue.dTime 0] :=
  ⟨rfl, rfl, rfl⟩

/-- C7 (amended): `to_values` maps nil to NULL, the signed integer widths
to integer storage, both float widths to 64-bit float storage, string to
text storage and byte slices to binary storage; `bool` and `time.Time`
pass through unchanged (stored as integer resp. timestamp by the driver
underneath); every unsigned integer width and every other dynamic type is
rejected with the unsupported-type error. -/
theorem to_values_mapping :
    (to_values [GoValue.goNil] = Except.ok [DriverValue.dNil]) ∧
    (∀ x : Int, to_values [GoValue.goInt x] = Except.ok [DriverValue.dInt64 x]) ∧
    (∀ x : Int, to_values [GoValue.goInt8 x] = Except.ok [DriverValue.dInt64 x]) ∧
    (∀ x : Int, to_values [GoValue.goInt16 x] = Except.ok [DriverValue.dInt64 x]) ∧
    (∀ x : Int, to_values [GoValue.goInt32 x] = Except.ok [DriverValue.dInt64 x]) ∧
    (∀ x : Int, to_values [GoValue.goInt64 x] = Except.ok [DriverValue.dInt64 x]) ∧
    (∀ x : Rat, to_values [GoValue.goFloat32 x] = Except.ok [DriverValue.dFloat64 x]) ∧
    (∀ x : Rat, to_values [GoValue.goFloat64 x] = Except.ok [DriverValue.dFloat64 x]) ∧
    (∀ s : String, to_values [GoValue.goString s] = Except.ok [DriverValue.dString s]) ∧
    (∀ b : Bool, to_values [GoValue.goBool b] = Except.ok [DriverValue.dBool b]) ∧
    (∀ bs : List Nat, to_values [GoValue.goBytes bs] = Except.ok [DriverValue.dBytes bs]) ∧
    (∀ t : Int, to_values [GoValue.goTime t] = Except.ok [DriverValue.dTime t]) ∧
    (∀ x : Nat, to_values [GoValue.goUint x] = Except.error 0) ∧
    (∀ x : Nat, to_values [GoValue.goUint8 x] = Except.error 0) ∧
    (∀ x : Nat, to_values [GoValue.goUint16 x] = Except.error 0) ∧
    (∀ x : Nat, to_values [GoValue.goUint32 x] = Except.error 0) ∧
    (∀ x : Nat, to_values [GoValue.goUint64 x] = Except.error 0) ∧
    (∀ ty : String, to_values [GoValue.goOther ty] = Except.error 0) :=
  ⟨rfl, fun _ => rfl, fun _ => rfl, fun _ => rfl, fun _ => rfl, fun _ => rfl,
   fun _ => rfl, fun _ => rfl, fun _ => rfl, fun _ => rfl, fun _ => rfl,
   fun _ => rfl, fun _ => rfl, fun _ => rfl, fun _ => rfl, fun _ => rfl,
   fun _ => rfl, fun _ => rfl⟩

/-- Bookkeeping fields of `execStep`: it always runs after a reset, its
bind flag is the one it was given, and it always performs the step. -/
theorem execStep_fields (st : StmtBehavior) (b : Bool) :
    (StatementEx.execStep st b).didReset = true ∧
    (StatementEx.execStep st b).didBind = b ∧
    (StatementEx.execStep st b).didStep = true := by
  unfold StatementEx.execStep
  split <;> exact ⟨rfl, rfl, rfl⟩

/-- A step outcome of row-available or done yields a cursor and no error. -/
theorem execStep_row_done (st : StmtBehavior) (b : Bool)
    (h : st.stepCode = SQLITE_ROW ∨ st.stepCode = SQLITE_DONE) :
    (StatementEx.execStep st b).results = some ⟨st.handle, st.stepCode⟩ ∧
    (StatementEx.execStep st b).err = none := by
  unfold StatementEx.execStep
  rw [if_pos (h.elim Or.inr Or.inl)]
  exact ⟨rfl, rfl⟩

/-- Execution protocol of `execAt`: the reset always runs; when it
succeeds, the bind runs exactly when arguments were supplied; when the bind
(if any) also succeeds, the step runs, and a row-available or done step
outcome yields a valid cursor and no error. -/
theorem execAt_fields (st : StmtBehavior) (b : Bool) :
    (StatementEx.execAt st b).didReset = true ∧
    (st.resetErr = none →
      (StatementEx.execAt st b).didBind = b ∧
      ((b = true → st.bindErr = none) →
        (StatementEx.execAt st b).didStep = true ∧
        ((st.stepCode = SQLITE_ROW ∨ st.stepCode = SQLITE_DONE) →
          (StatementEx.execAt st b).results = some ⟨st.handle, st.stepCode⟩ ∧
          (StatementEx.execAt st b).err = none))) := by
  unfold StatementEx.execAt
  rcases hr : st.resetErr with _ | e
  · cases b
    · exact ⟨(execStep_fields st false).1,
        fun _ => ⟨(execStep_fields st false).2.1,
          fun _ => ⟨(execStep_fields st false).2.2,
            fun hc => execStep_row_done st false hc⟩⟩⟩
    · rcases hb : st.bindErr with _ | e
      · exact ⟨(execStep_fields st true).1,
          fun _ => ⟨(execStep_fields st true).2.1,
            fun _ => ⟨(execStep_fields st true).2.2,
              fun hc => execStep_row_done st true hc⟩⟩⟩
      · exact ⟨rfl, fun _ => ⟨rfl, fun hbn => Option.noConfusion (hbn rfl)⟩⟩
  · exact ⟨rfl, fun hc => Option.noConfusion hc⟩

/-- C3: for a statement set of N compiled statements, `Exec` at an index
beyond the sequence returns the `(nil, SQLITE_DONE)` "no more statements"
marker without resetting, binding or stepping anything — a completion
signal, not a failure — while `Exec` at an index below N resets the
statement, binds exactly when values were supplied, steps once, and
returns a valid Result Cursor (with nil error) whenever the step outcome is
row-available or done. -/
theorem Exec_indexed_execution (sts : List StmtBehavior) (n : Nat)
    (hasArgs : Bool) :
    (sts.length ≤ n →
      StatementEx.Exec sts n hasArgs =
        ⟨none, some SQLITE_DONE, false, false, false⟩) ∧
    (∀ h : n < sts.length,
      (StatementEx.Exec sts n hasArgs).didReset = true ∧
      (sts[n].resetErr = none →
        (StatementEx.Exec sts n hasArgs).didBind = hasArgs ∧
        ((hasArgs = true → sts[n].bindErr = none) →
          (StatementEx.Exec sts n hasArgs).didStep = true ∧
          ((sts[n].stepCode = SQLITE_ROW ∨ sts[n].stepCode = SQLITE_DONE) →
            (StatementEx.Exec sts n hasArgs).results =
              some ⟨sts[n].handle, sts[n].stepCode⟩ ∧
            (StatementEx.Exec sts n hasArgs).err = none)))) := by
  constructor
  · intro hle
    unfold StatementEx.Exec
    rw [List.getElem?_eq_none hle]
  · intro h
    have hE : StatementEx.Exec sts n hasArgs = StatementEx.execAt sts[n] hasArgs := by
      unfold StatementEx.Exec
      rw [List.getElem?_eq_getElem h]
    rw [hE]
    exact execAt_fields sts[n] hasArgs

/-- C3 witness: on a one-statement set whose step yields a row, `Exec 0`
returns a cursor with no error, and `Exec 1` returns the done marker. -/
theorem Exec_indexed_execution_witness :
    StatementEx.Exec demoSet 1 false =
      ⟨none, some SQLITE_DONE, false, false, false⟩ ∧
    (StatementEx.Exec demoSet 0 false).results = some ⟨1, SQLITE_ROW⟩ ∧
    (StatementEx.Exec demoSet 0 false).err = none :=
  ⟨(Exec_indexed_execution demoSet 1 false).1 (by decide),
   ((((Exec_indexed_execution demoSet 0 false).2 (by decide)).2 rfl).2
      (fun hc => nomatch hc)).2 (Or.inl rfl)⟩

set_option maxRecDepth 100000 in
/-- C8: because `isReservedWord` declares its `sync.Once` locally, the
reserved-word initialiser runs again on the second call (`runCount = 2`
after two calls) instead of exactly once; the re-run re-writes the global
map with the same entries, so the observed table contents do not change. -/
theorem isReservedWord_reruns_initialiser :
    rsCall1.1 = true ∧ rsCall2.1 = true ∧ rsCall2.2.runCount = 2 ∧
    rsCall2.2.table = rsCall1.2.table := by decide

/-- The `sync.Pool` never yields an interface holding a typed nil `*Conn`:
the idle store holds real connections and the `New` closure returns either
a real connection or the nil interface. -/
theorem storeGet_no_typed_nil (p : PoolState) (ctor : Except Err Conn) :
    (Pool.storeGet p ctor).1 ≠ some none := by
  unfold Pool.storeGet
  rcases hi : p.idle with _ | ⟨c, rest⟩
  · rcases ctor with e | c <;> simp
  · simp

/-- C9: when `Get` must construct a connection (idle store empty, lease
count under the maximum) and the constructor fails, the `New` closure
returns a nil interface and the `.(*Conn)` type assertion panics — `Get`
does not return nil on that path; moreover the `conn == nil` check after
the assertion can never be the branch that returns, on any input. -/
theorem Get_ctor_failure_panics (p : PoolState) (e : Err)
    (hn : p.n < p.max) (hidle : p.idle = []) :
    (Pool.Get p (Except.error e)).1 = GetOutcome.panicked ∧
    ∀ (q : PoolState) (ctor : Except Err Conn),
      (Pool.Get q ctor).1 ≠ GetOutcome.nilConn := by
  constructor
  · unfold Pool.Get
    rw [if_neg (not_le.mpr hn)]
    unfold Pool.storeGet
    rw [hidle]
  · intro q ctor
    unfold Pool.Get
    split
    · simp
    · rcases hs : Pool.storeGet q ctor with ⟨ifc, p'⟩
      rcases ifc with _ | oc
      · simp
      · rcases oc with _ | c
        · exact absurd (by rw [hs]) (storeGet_no_typed_nil q ctor)
        · by_cases hch : c.hasChannel <;> simp [hch]

/-- C9 witness: an empty pool under its maximum whose constructor fails
(default schema unresolvable) makes `Get` panic, and a successful
constructor never produces the nil-check return either. -/
theorem Get_ctor_failure_panics_witness :
    (Pool.Get emptyPool5 (Except.error (Err.notFound "main"))).1 =
      GetOutcome.panicked ∧
    (Pool.Get emptyPool5 (Except.ok conn7)).1 ≠ GetOutcome.nilConn :=
  ⟨(Get_ctor_failure_panics emptyPool5 (Err.notFound "main")
      (by decide) rfl).1,
   (Get_ctor_failure_panics emptyPool5 (Err.notFound "main")
      (by decide) rfl).2 emptyPool5 (Except.ok conn7)⟩

/-- C5 counterexample: the second `OpenPool` variant, given a configuration
whose maximum is zero, returns a pool whose maximum is 0 — neither replaced
by the default 5 nor coerced to at least 1 — and whose idle store is empty,
with no eagerly created Connection. -/
theorem OpenPoolV2_defaults_cx :
    (OpenPoolV2 cfgZero 0).max = 0 ∧
    (OpenPoolV2 cfgZero 0).idle = [] ∧
    ¬((OpenPoolV2 cfgZero 0).max = defaultPoolMax ∧
      (OpenPoolV2 cfgZero 0).idle.length = 1) := by decide

/-- C5 (amended): for every configuration whose connection constructor
succeeds, the first `OpenPool` variant returns a pool with lease count 0,
maximum equal to the configured maximum — the default 5 when zero was
configured, and in any case at least 1 — and exactly the one eagerly
created Connection in its idle store; the second variant instead returns a
pool with lease count 0, the maximum coerced only to at least 0 (no default
for zero), and an empty idle store. -/
theorem OpenPool_variants_spec (config : PoolConfig) (sinkCap : Nat)
    (openOracle : Except Err Conn)
    (engineAttach : String → String → Option Err) (c : Conn)
    (h : (Pool.new config.schemas openOracle engineAttach).conn = some c) :
    OpenPoolV1 config sinkCap openOracle engineAttach =
      Except.ok { n := 0,
                  max := if config.maxConns = 0 then defaultPoolMax
                         else goMaxInt config.maxConns 1,
                  idle := [c], flags := OpenPoolV1.flagsOf config,
                  sink := [], sinkCap := sinkCap } ∧
    (1 : Int) ≤ (if config.maxConns = 0 then defaultPoolMax
                 else goMaxInt config.maxConns 1) ∧
    OpenPoolV2 config sinkCap =
      { n := 0, max := goMaxInt config.maxConns 0, idle := [],
        flags := config.flags, sink := [], sinkCap := sinkCap } := by
  refine ⟨?_, ?_, rfl⟩
  · simp only [OpenPoolV1, h]
  · split
    · decide
    · unfold goMaxInt
      split <;> omega

/-- C5 witness: the zero-maximum configuration with a resolvable default
schema opens (first variant) with maximum 5, lease count 0 and one idle
connection. -/
theorem OpenPool_variants_spec_witness :
    (Pool.new cfgZero.schemas (Except.ok conn7) attachOk).conn = some conn7 ∧
    OpenPoolV1 cfgZero 0 (Except.ok conn7) attachOk =
      Except.ok { n := 0,
                  max := if cfgZero.maxConns = 0 then defaultPoolMax
                         else goMaxInt cfgZero.maxConns 1,
                  idle := [conn7], flags := OpenPoolV1.flagsOf cfgZero,
                  sink := [], sinkCap := 0 } :=
  ⟨by decide,
   (OpenPool_variants_spec cfgZero 0 (Except.ok conn7) attachOk conn7
      (by decide)).1⟩

/-- A non-matching schema name resolves to the empty path. -/
theorem schemaPath_not_matches (schemas : List (String × String)) (s : String)
    (hm : matchesSchemaName s = false) : Pool.schemaPath schemas s = "" := by
  unfold Pool.schemaPath
  rw [hm]
  rfl

/-- A non-matching, non-empty schema name resolves to the empty path
through `pathForSchema` as well. -/
theorem pathForSchema_not_matches (schemas : List (String × String))
    (s : String) (hs : s ≠ "") (hm : matchesSchemaName s = false) :
    Pool.pathForSchema schemas s = "" := by
  unfold Pool.pathForSchema
  rw [if_neg hs]
  exact schemaPath_not_matches schemas s hm

/-- Engine attach attempts recorded by `Pool.attach` for a non-empty path
target exactly the given schema and path, and occur only for non-empty
schema names. -/
theorem attach_calls (ea : String → String → Option Err) (schema path : String)
    (hp : path ≠ "") (pr : String × String)
    (h : pr ∈ (Pool.attach ea schema path).2) :
    schema ≠ "" ∧ pr = (schema, path) := by
  unfold Pool.attach at h
  by_cases hsch : schema = ""
  · rw [if_pos hsch] at h
    exact absurd h (List.not_mem_nil pr)
  · rw [if_neg hsch, if_neg hp] at h
    exact ⟨hsch, List.mem_singleton.mp h⟩

/-- Errors accumulated by the remaining iterations survive one more
iteration of the attach loop. -/
theorem attachStep_errs_mono (schemas : List (String × String))
    (ea : String → String → Option Err) (kv : String × String)
    (r : List Err × List (String × String)) (e : Err) (h : e ∈ r.1) :
    e ∈ (Pool.attachStep schemas ea kv r).1 := by
  unfold Pool.attachStep
  by_cases h1 : goTrimSpace kv.1 = defaultSchema
  · rw [if_pos h1]
    exact h
  · rw [if_neg h1]
    by_cases h2 : Pool.pathForSchema schemas (goTrimSpace kv.1) = ""
    · rw [if_pos h2]
      exact List.mem_cons_of_mem _ h
    · rw [if_neg h2]
      rcases hA : Pool.attach ea (goTrimSpace kv.1)
          (Pool.pathForSchema schemas (goTrimSpace kv.1)) with ⟨oe, calls⟩
      rcases oe with _ | e'
      · exact h
      · exact List.mem_cons_of_mem _ h

/-- Every engine attach attempt surviving one iteration of the attach loop
either comes from the remaining iterations or targets a non-empty schema
name with a non-empty resolved path. -/
theorem attachStep_attached_mem (schemas : List (String × String))
    (ea : String → String → Option Err) (kv : String × String)
    (r : List Err × List (String × String)) (pr : String × String)
    (h : pr ∈ (Pool.attachStep schemas ea kv r).2) :
    pr ∈ r.2 ∨ (pr.1 ≠ "" ∧ Pool.pathForSchema schemas pr.1 ≠ "") := by
  unfold Pool.attachStep at h
  by_cases h1 : goTrimSpace kv.1 = defaultSchema
  · rw [if_pos h1] at h
    exact Or.inl h
  · rw [if_neg h1] at h
    by_cases h2 : Pool.pathForSchema schemas (goTrimSpace kv.1) = ""
    · rw [if_pos h2] at h
      exact Or.inl h
    · rw [if_neg h2] at h
      generalize hA : Pool.attach ea (goTrimSpace kv.1)
          (Pool.pathForSchema schemas (goTrimSpace kv.1)) = ac at h
      obtain ⟨oe, calls⟩ := ac
      have hcalls : pr ∈ calls →
          pr.1 ≠ "" ∧ Pool.pathForSchema schemas pr.1 ≠ "" := by
        intro hc
        have hmc : pr ∈ (Pool.attach ea (goTrimSpace kv.1)
            (Pool.pathForSchema schemas (goTrimSpace kv.1))).2 := by
          rw [hA]
          exact hc
        rcases attach_calls ea (goTrimSpace kv.1)
            (Pool.pathForSchema schemas (goTrimSpace kv.1)) h2 pr hmc with ⟨hne, hpr⟩
        rw [hpr]
        exact ⟨hne, h2⟩
      rcases oe with _ | e'
      · rcases List.mem_append.mp h with hc | hr
        · exact Or.inr (hcalls hc)
        · exact Or.inl hr
      · rcases List.mem_append.mp h with hc | hr
        · exact Or.inr (hcalls hc)
        · exact Or.inl hr

/-- A configured schema which is not the default and whose trimmed name is
empty or resolves to the empty path contributes `ErrBadParameter` in one
iteration of the attach loop. -/
theorem attachStep_badParam (schemas : List (String × String))
    (ea : String → String → Option Err) (kv : String × String)
    (r : List Err × List (String × String))
    (hdef : goTrimSpace kv.1 ≠ defaultSchema)
    (hpe : Pool.pathForSchema schemas (goTrimSpace kv.1) = "" ∨
      goTrimSpace kv.1 = "") :
    Err.badParameter (goTrimSpace kv.1) ∈ (Pool.attachStep schemas ea kv r).1 := by
  unfold Pool.attachStep
  rw [if_neg hdef]
  by_cases h2 : Pool.pathForSchema schemas (goTrimSpace kv.1) = ""
  · rw [if_pos h2]
    exact List.mem_cons_self _ _
  · rw [if_neg h2]
    have hsch : goTrimSpace kv.1 = "" := hpe.resolve_left h2
    rw [hsch]
    simp [Pool.attach]

/-- The attach loop accumulates `ErrBadParameter` for every configured
non-default schema whose trimmed name is empty or resolves to the empty
path. -/
theorem attachLoop_badParam (schemas : List (String × String))
    (ea : String → String → Option Err) (l : List (String × String))
    (kv : String × String) (hmem : kv ∈ l)
    (hdef : goTrimSpace kv.1 ≠ defaultSchema)
    (hpe : Pool.pathForSchema schemas (goTrimSpace kv.1) = "" ∨
      goTrimSpace kv.1 = "") :
    Err.badParameter (goTrimSpace kv.1) ∈ (Pool.attachLoop schemas ea l).1 := by
  induction l with
  | nil => exact absurd hmem (List.not_mem_nil kv)
  | cons a rest ih =>
      rcases List.mem_cons.mp hmem with heq | hmem'
      · subst heq
        unfold Pool.attachLoop
        exact attachStep_badParam schemas ea kv
          (Pool.attachLoop schemas ea rest) hdef hpe
      · unfold Pool.attachLoop
        exact attachStep_errs_mono schemas ea a
          (Pool.attachLoop schemas ea rest) _ (ih hmem')

/-- Every engine attach attempt made by the attach loop targets a
non-empty schema name whose resolved path is non-empty. -/
theorem attachLoop_attached (schemas : List (String × String))
    (ea : String → String → Option Err) (l : List (String × String))
    (pr : String × String) (h : pr ∈ (Pool.attachLoop schemas ea l).2) :
    pr.1 ≠ "" ∧ Pool.pathForSchema schemas pr.1 ≠ "" := by
  induction l with
  | nil => exact absurd h (List.not_mem_nil pr)
  | cons a rest ih =>
      unfold Pool.attachLoop at h
      rcases attachStep_attached_mem schemas ea a
          (Pool.attachLoop schemas ea rest) pr h with hr | hgood
      · exact ih hr
      · exact hgood

/-- C6: a configured schema whose trimmed name does not match
`reSchemaName` (such as `"1bad"`) and is not the default schema makes
connection construction fail with an `ErrBadParameter` condition naming
that schema, and no engine attach is attempted for it — given that
construction reaches the attach stage (default schema resolvable, engine
open successful). -/
theorem new_invalid_schema_rejected (schemas : List (String × String))
    (engineAttach : String → String → Option Err) (c : Conn)
    (kv : String × String) (hmem : kv ∈ schemas)
    (hdef : goTrimSpace kv.1 ≠ defaultSchema)
    (hbad : matchesSchemaName (goTrimSpace kv.1) = false)
    (hdefault : Pool.pathForSchema schemas defaultSchema ≠ "") :
    Err.badParameter (goTrimSpace kv.1) ∈
      (Pool.new schemas (Except.ok c) engineAttach).errs ∧
    (Pool.new schemas (Except.ok c) engineAttach).conn = none ∧
    ∀ pr ∈ (Pool.new schemas (Except.ok c) engineAttach).attached,
      pr.1 ≠ goTrimSpace kv.1 := by
  have hpe : Pool.pathForSchema schemas (goTrimSpace kv.1) = "" ∨
      goTrimSpace kv.1 = "" := by
    by_cases ht : goTrimSpace kv.1 = ""
    · exact Or.inr ht
    · exact Or.inl (pathForSchema_not_matches schemas _ ht hbad)
  have hbp := attachLoop_badParam schemas engineAttach schemas kv hmem hdef hpe
  have hne : (Pool.attachLoop schemas engineAttach schemas).1 ≠ [] := by
    intro hnil
    rw [hnil] at hbp
    exact absurd hbp (List.not_mem_nil _)
  have hnew : Pool.new schemas (Except.ok c) engineAttach =
      { conn := none,
        errs := (Pool.attachLoop schemas engineAttach schemas).1,
        attached := (Pool.attachLoop schemas engineAttach schemas).2 } := by
    unfold Pool.new
    simp [hdefault, hne]
  rw [hnew]
  refine ⟨hbp, rfl, ?_⟩
  intro pr hpr hcontra
  have hat := attachLoop_attached schemas engineAttach schemas pr hpr
  rcases hpe with hp | hp
  · exact hat.2 (hcontra ▸ hp)
  · exact hat.1 (hcontra.trans hp)

/-- C6 witness: with the default schema mapped to the in-memory store and
the schema `"1bad"` configured, construction fails with
`ErrBadParameter "1bad"`, hands out no connection, and attempts no engine
attach for `"1bad"`. -/
theorem new_invalid_schema_rejected_witness :
    Err.badParameter "1bad" ∈
      (Pool.new schemasWithBad (Except.ok conn7) attachOk).errs ∧
    (Pool.new schemasWithBad (Except.ok conn7) attachOk).conn = none ∧
    ∀ pr ∈ (Pool.new schemasWithBad (Except.ok conn7) attachOk).attached,
      pr.1 ≠ "1bad" := by
  have h := new_invalid_schema_rejected schemasWithBad attachOk conn7
    ("1bad", "x.db") (by decide) (by decide) (by decide) (by decide)
  have e1 : goTrimSpace ("1bad", "x.db").1 = "1bad" := by decide
  rw [e1] at h
  exact h

end GoSqlite
